import Mathlib

/-!
Shallow embedding of the uni-chain course front-end, from
src/substrate-fe/src/Course.js (the Courses container: parseCourse,
subscribeCount, subscribeCourses and their cleanups) and the CourseCards
module (TransferModal, SetPrice, BuyCourse, CourseCard).

JavaScript values flowing through this code are strings, numbers, null,
undefined, and polkadot-style wire (codec) objects that expose toJSON and
toU8a.  Wire objects are modelled by the constructor JSVal.wire carrying
the value toJSON would return and the byte list toU8a would return.
Calling toJSON or toU8a on a non-wire value is a TypeError, modelled by
Option-valued projections returning none.  Strict equality between two
wire objects is reference equality; distinct references are the general
case in the data flow here, so jeq treats wire values as never strictly
equal (no wire value is ever compared with === in the modelled code
paths).  Throwing code is modelled with Except.
-/

namespace UniChain

/-- A JavaScript value as used by this front-end: string, number, null,
undefined, or an opaque wire (codec) object carrying its toJSON value and
its toU8a bytes. -/
inductive JSVal where
  | str : String → JSVal
  | num : Int → JSVal
  | null : JSVal
  | undef : JSVal
  | wire : JSVal → List Nat → JSVal
deriving DecidableEq

/-- Calling .toJSON() on a value: defined exactly on wire objects. -/
def jsToJSON : JSVal → Option JSVal
  | JSVal.wire j _ => some j
  | _ => none

/-- Calling .toU8a() on a value: defined exactly on wire objects. -/
def jsToU8a : JSVal → Option (List Nat)
  | JSVal.wire _ b => some b
  | _ => none

/-- JavaScript truthiness of a value. -/
def truthy : JSVal → Bool
  | JSVal.str s => !(s == "")
  | JSVal.num n => !(n == 0)
  | JSVal.null => false
  | JSVal.undef => false
  | JSVal.wire _ _ => true

/-- JavaScript strict equality (===) restricted to the values above; two
wire objects are distinct references in the modelled data flow. -/
def jeq : JSVal → JSVal → Bool
  | JSVal.str a, JSVal.str b => a == b
  | JSVal.num a, JSVal.num b => a == b
  | JSVal.null, JSVal.null => true
  | JSVal.undef, JSVal.undef => true
  | _, _ => false

/-- Destructuring default: a default value replaces only undefined, as in
the CourseCard line with owner defaulted to null. -/
def jsDefault (v : JSVal) : JSVal :=
  match v with
  | JSVal.undef => JSVal.null
  | w => w

/-- A course record: in wire form all four fields are wire objects; after
parseCourse the dna field is still the wire object while the other three
hold the plain toJSON values. -/
structure Course where
  dna : JSVal
  price : JSVal
  course_year : JSVal
  owner : JSVal
deriving DecidableEq

/-- parseCourse from Course.js: keeps dna as-is and converts price,
course_year and owner with toJSON, in that evaluation order; a TypeError
from a non-wire field is modelled by none. -/
def parseCourse (c : Course) : Option Course :=
  match jsToJSON c.price with
  | none => none
  | some p =>
    match jsToJSON c.course_year with
    | none => none
    | some y =>
      match jsToJSON c.owner with
      | none => none
      | some o => some { dna := c.dna, price := p, course_year := y, owner := o }

/-- Component state of the Courses container: courseIds, courses and
status, as held by its three useState hooks. -/
structure CoursesState where
  courseIds : List JSVal
  courses : List Course
  status : String
deriving DecidableEq

/-- Initial component state: both lists start empty and status starts as
the empty string. -/
def initialState : CoursesState :=
  { courseIds := [], courses := [], status := ("") }

/-- The ledger snapshot of the courseGrading.courses storage map: the
records present at this moment.  The storage key of each entry is the
record itself wrapped in Some; enumeration lists exactly these. -/
def enumerateIds (ledger : List Course) : List JSVal :=
  ledger.map (fun c => c.dna)

/-- The countForCourses callback in subscribeCount: query all entries of
the courses map, unwrap each (entries only lists present values, so the
unwrap always succeeds there), take the dna of each, and replace
courseIds with the result. -/
def handleCountPush (ledger : List Course) (s : CoursesState) : CoursesState :=
  { s with courseIds := enumerateIds ledger }

/-- Storage lookup of one identifier in the courses map, keyed by dna. -/
def lookupCourse (ledger : List Course) (id : JSVal) : Option Course :=
  ledger.find? (fun c => c.dna == id)

/-- What api.query.courseGrading.courses.multi delivers for a key list: a
sequence of wrapped-optional records aligned positionally with the
keys. -/
def multiResolve (ledger : List Course) (ids : List JSVal) : List (Option Course) :=
  ids.map (fun id => lookupCourse ledger id)

/-- One step of the map callback in the subscribeCourses push handler:
course.unwrap(), which throws on a None, followed by parseCourse, which
throws a TypeError on a non-wire field. -/
def parseStep (oc : Option Course) : Except String Course :=
  match oc with
  | none => Except.error ("Option: unwrapping a None value")
  | some c =>
    match parseCourse c with
    | some r => Except.ok r
    | none => Except.error ("TypeError: toJSON is not a function")

/-- The whole map in the subscribeCourses push handler, element by element
in order; the first throw aborts the map. -/
def parseAll : List (Option Course) → Except String (List Course)
  | [] => Except.ok []
  | oc :: rest =>
    match parseStep oc with
    | Except.error e => Except.error e
    | Except.ok r =>
      match parseAll rest with
      | Except.error e => Except.error e
      | Except.ok rs => Except.ok (r :: rs)

/-- The subscribeCourses push handler: map parseCourse over the unwrapped
records and replace courses wholesale; if the map throws, setCourses is
never reached and the state is unchanged. -/
def handleCoursesPush (pushed : List (Option Course)) (s : CoursesState) :
    Except String CoursesState :=
  match parseAll pushed with
  | Except.error e => Except.error e
  | Except.ok cs => Except.ok { s with courses := cs }

/-- The cleanup closure returned by subscribeCount: unsub and unsub().
The result lists the handles invoked (the unsubscribe handle is an opaque
token). -/
def countCleanup : Option Nat → List Nat
  | some h => [h]
  | none => []

/-- The cleanup closure returned by subscribeCourses, identical in shape
to the one of subscribeCount. -/
def coursesCleanup : Option Nat → List Nat
  | some h => [h]
  | none => []

/-- Outcome of awaiting the aggregate subscription open inside
subscribeCount's asyncFetch: either the resolved unsubscribe handle or a
transport failure (the awaited promise rejected). -/
inductive TransportResult where
  | ok : Nat → TransportResult
  | failed : String → TransportResult
deriving DecidableEq

/-- subscribeCount's fire-and-forget asyncFetch call: on success the
unsubscribe handle is recorded; a rejection is caught nowhere, no
setStatus exists on this path, and the call is made exactly once (no
retry), so on failure nothing at all happens to the component state and
the handle stays unset. -/
def subscribeCountSetup (r : TransportResult) (s : CoursesState) :
    CoursesState × Option Nat :=
  match r with
  | TransportResult.ok h => (s, some h)
  | TransportResult.failed _ => (s, none)

/-- The per-record actions a CourseCard can render. -/
inductive Action where
  | setPrice : Action
  | transfer : Action
  | buy : Action
deriving DecidableEq

/-- The BuyCourse component: renders nothing when course.price is falsy,
otherwise the single Buy action. -/
def buyActions (course : Course) : List Action :=
  if truthy course.price then [Action.buy] else []

/-- The action group of a CourseCard: the gate is owner ===
currentAccount.address, where owner is the destructured field with null
as its default for undefined; its owner branch renders SetPrice then
TransferModal, its other branch renders BuyCourse. -/
def courseActions (addr : String) (course : Course) : List Action :=
  if jeq (jsDefault course.owner) (JSVal.str addr) then
    [Action.setPrice, Action.transfer]
  else
    buyActions course

/-- The isSelf flag of a CourseCard, gating the Mine label:
currentAccount.address === course.owner (the raw field, without the
destructuring default). -/
def mineLabel (addr : String) (course : Course) : Bool :=
  jeq (JSVal.str addr) course.owner

/-- Whether the owner action group is the one rendered. -/
def ownerGroupShown (addr : String) (course : Course) : Bool :=
  jeq (jsDefault course.owner) (JSVal.str addr)

/-- The attrs object handed to a TxButton. -/
structure CallDescriptor where
  palletRpc : String
  callable : String
  inputParams : List JSVal
  paramFields : List Bool
deriving DecidableEq

/-- The attrs built by TransferModal: callable transfer with the form's
target (the receiver address) first and course.dna second. -/
def transferCall (target : JSVal) (course : Course) : CallDescriptor :=
  { palletRpc := ("courseGrading"), callable := ("transfer"),
    inputParams := [target, course.dna], paramFields := [true, true] }

/-- The attrs built by SetPrice: callable setPrice with course.dna first
and the form's target (the new price) second. -/
def setPriceCall (target : JSVal) (course : Course) : CallDescriptor :=
  { palletRpc := ("courseGrading"), callable := ("setPrice"),
    inputParams := [course.dna, target], paramFields := [true, true] }

/-- The attrs built by BuyCourse: callable buyCourse with course.dna
first and course.price second. -/
def buyCourseCall (course : Course) : CallDescriptor :=
  { palletRpc := ("courseGrading"), callable := ("buyCourse"),
    inputParams := [course.dna, course.price], paramFields := [true, true] }

/-- The open flag of one modal dialog. -/
structure ModalState where
  openFlag : Bool
deriving DecidableEq

/-- The confirmAndClose handler shared by the three modals: it runs at
submission time (TxButton onClick), before any transaction outcome
exists, sets open to false unconditionally, and invokes the submission's
own internal unsubscribe handle when one was passed. -/
def confirmAndClose (unsub : Option Nat) (m : ModalState) : ModalState × List Nat :=
  ({ m with openFlag := false },
   match unsub with
   | some h => [h]
   | none => [])

/-- Rendering one CourseCard, as far as the dna field is concerned: first
displayDna is computed as dna && dna.toJSON(), then CourseAvatar receives
dna.toU8a(); a TypeError in either is modelled by none. -/
def renderCourseCard (course : Course) : Option (JSVal × List Nat) :=
  match (if truthy course.dna then jsToJSON course.dna else some course.dna) with
  | none => none
  | some displayDna =>
    match jsToU8a course.dna with
    | none => none
    | some bytes => some (displayDna, bytes)

/-- Whether a form value counts as empty input: undefined (untouched
field), null, or the empty string. -/
def jsNonEmpty : JSVal → Bool
  | JSVal.str s => !(s == "")
  | JSVal.num _ => true
  | JSVal.null => false
  | JSVal.undef => false
  | JSVal.wire _ _ => true

/-- Modelled from the spec: the transaction-submission button (TxButton,
under substrate-lib/components, which is not present under src/) performs
no validation of its input parameters beyond requiring non-empty input; a
confirm with an empty required parameter is rejected locally (nothing is
submitted) and otherwise the descriptor is submitted unchanged. -/
def submitGate (d : CallDescriptor) : Option CallDescriptor :=
  if d.inputParams.all jsNonEmpty then some d else none

/-- Stated from the spec's rendered call-descriptor list: the transfer
operation takes receiverAddress then courseIdentifier, with kind flags
[true, true]; to be compared with transferCall built from the source. -/
def specTransferDescriptor (receiverAddress courseIdentifier : JSVal) : CallDescriptor :=
  { palletRpc := ("courseGrading"), callable := ("transfer"),
    inputParams := [receiverAddress, courseIdentifier], paramFields := [true, true] }

/-- Stated from the spec: setPrice takes courseIdentifier then
newPrice. -/
def specSetPriceDescriptor (courseIdentifier newPrice : JSVal) : CallDescriptor :=
  { palletRpc := ("courseGrading"), callable := ("setPrice"),
    inputParams := [courseIdentifier, newPrice], paramFields := [true, true] }

/-- Stated from the spec: buyCourse takes courseIdentifier then price. -/
def specBuyCourseDescriptor (courseIdentifier price : JSVal) : CallDescriptor :=
  { palletRpc := ("courseGrading"), callable := ("buyCourse"),
    inputParams := [courseIdentifier, price], paramFields := [true, true] }

/-- A sample course owned by the account alice, with price unset. -/
def ownedCourse : Course :=
  { dna := JSVal.wire (JSVal.str ("0xaa")) [1, 2],
    price := JSVal.num 0,
    course_year := JSVal.num 2024,
    owner := JSVal.str ("alice") }

/-- A sample ledger record in wire form, all four fields wire objects. -/
def wireCourse : Course :=
  { dna := JSVal.wire (JSVal.str ("0xbb")) [3, 4],
    price := JSVal.wire (JSVal.num 5) [5],
    course_year := JSVal.wire (JSVal.num 2024) [6],
    owner := JSVal.wire (JSVal.str ("bob")) [7] }

theorem parseCourse_dna (c r : Course) (h : parseCourse c = some r) : r.dna = c.dna := by
  unfold parseCourse at h
  cases hp : jsToJSON c.price with
  | none => rw [hp] at h; exact Option.noConfusion h
  | some p =>
    rw [hp] at h
    cases hy : jsToJSON c.course_year with
    | none => rw [hy] at h; exact Option.noConfusion h
    | some y =>
      rw [hy] at h
      cases ho : jsToJSON c.owner with
      | none => rw [ho] at h; exact Option.noConfusion h
      | some o =>
        rw [ho] at h
        cases h
        rfl

theorem lookupCourse_dna (L : List Course) (id : JSVal) (c : Course)
    (h : lookupCourse L id = some c) : c.dna = id := by
  unfold lookupCourse at h
  have hp := List.find?_some h
  simpa using hp

theorem parseAll_resolved (L : List Course) (ids : List JSVal)
    (hres : ∀ id ∈ ids, ((lookupCourse L id).bind parseCourse).isSome = true) :
    ∃ cs, parseAll (multiResolve L ids) = Except.ok cs ∧
      cs.map (fun r => r.dna) = ids := by
  induction ids with
  | nil => exact ⟨[], rfl, rfl⟩
  | cons id rest ih =>
    have hid := hres id (List.mem_cons_self id rest)
    obtain ⟨c, hc⟩ : ∃ c, lookupCourse L id = some c := by
      cases h : lookupCourse L id with
      | none => rw [h] at hid; simp at hid
      | some c => exact ⟨c, rfl⟩
    obtain ⟨r, hr⟩ : ∃ r, parseCourse c = some r := by
      rw [hc] at hid
      cases h : parseCourse c with
      | none => simp [h] at hid
      | some r => exact ⟨r, rfl⟩
    obtain ⟨cs, hcs, hmap⟩ := ih (fun i hi => hres i (List.mem_cons_of_mem _ hi))
    refine ⟨r :: cs, ?_, ?_⟩
    · have hstep : parseStep (lookupCourse L id) = Except.ok r := by
        rw [hc]; simp [parseStep, hr]
      simp only [multiResolve, List.map_cons] at hcs ⊢
      simp [parseAll, hstep, hcs]
    · simp [hmap, parseCourse_dna c r hr, lookupCourse_dna L id c hc]

/-- C1: the spec requires a resolution push containing an identifier whose
record is absent from the ledger to exclude that identifier without
throwing; the code instead calls course.unwrap() unconditionally, so the
push handler throws on the None and never updates CourseRecords.  This
theorem evaluates the handler at the failing input: a CourseIdSet holding
one identifier over an empty ledger. -/
theorem resolution_missing_throws :
    handleCoursesPush (multiResolve [] [JSVal.wire (JSVal.str ("0x01")) [1]]) initialState =
      Except.error ("Option: unwrapping a None value") := rfl

/-- C2: after handling aggregate-signal push N, courseIds equals exactly
the enumeration of the ledger queried while handling push N, whatever
pushes came before and whatever the component state was: a wholesale
replacement with no accumulation, deduplication or diffing. -/
theorem count_push_wholesale (prev : List (List Course)) (ledger : List Course)
    (s : CoursesState) :
    ((prev ++ [ledger]).foldl (fun st L => handleCountPush L st) s).courseIds =
      enumerateIds ledger := by
  simp [List.foldl_append, handleCountPush]

/-- C3: when the viewer owns the record the rendered action set is exactly
SetPrice then Transfer (Buy absent, any price including 0); when the owner
differs and the price is positive it is exactly Buy; when the owner
differs and the price is zero or absent it is empty. -/
theorem courseCard_action_set (addr o : String) (c : Course)
    (ho : c.owner = JSVal.str o) :
    (o = addr → courseActions addr c = [Action.setPrice, Action.transfer]) ∧
    (o ≠ addr → ∀ p : Int, c.price = JSVal.num p → 0 < p →
      courseActions addr c = [Action.buy]) ∧
    (o ≠ addr →
      (c.price = JSVal.num 0 ∨ c.price = JSVal.null ∨ c.price = JSVal.undef) →
      courseActions addr c = []) := by
  have hg : jsDefault c.owner = JSVal.str o := by rw [ho]; rfl
  refine ⟨?_, ?_, ?_⟩
  · intro h
    subst h
    simp [courseActions, hg, jeq]
  · intro hne p hp hpos
    have hpz : ¬ p = 0 := by omega
    simp [courseActions, hg, jeq, hne, buyActions, hp, truthy, hpz]
  · intro hne hcases
    rcases hcases with h | h | h <;>
      simp [courseActions, hg, jeq, hne, buyActions, h, truthy]

/-- Witness for C3 at concrete inputs: alice viewing her own zero-priced
record sees exactly the SetPrice and Transfer actions. -/
theorem courseCard_action_set_witness :
    courseActions ("alice") ownedCourse = [Action.setPrice, Action.transfer] :=
  (courseCard_action_set ("alice") ("alice") ownedCourse rfl).1 rfl

/-- C4: the call descriptors built by the three modals refine the spec's
rendered descriptor list, argument for argument — transfer sends the form
target (receiver) first and course.dna second, setPrice sends course.dna
first and the form target (new price) second, buyCourse sends course.dna
then course.price, all with kind flags [true, true]; the concrete transfer
with recipient R and identifier D is spelled out; and confirmAndClose runs
at submission time and closes the dialog unconditionally, before and
independent of any transaction outcome. -/
theorem action_call_descriptors :
    (∀ (t : JSVal) (c : Course), transferCall t c = specTransferDescriptor t c.dna) ∧
    (∀ (t : JSVal) (c : Course), setPriceCall t c = specSetPriceDescriptor c.dna t) ∧
    (∀ c : Course, buyCourseCall c = specBuyCourseDescriptor c.dna c.price) ∧
    transferCall (JSVal.str ("R"))
        { dna := JSVal.str ("D"), price := JSVal.null,
          course_year := JSVal.null, owner := JSVal.null } =
      { palletRpc := ("courseGrading"), callable := ("transfer"),
        inputParams := [JSVal.str ("R"), JSVal.str ("D")],
        paramFields := [true, true] } ∧
    (∀ (u : Option Nat) (m : ModalState), (confirmAndClose u m).1.openFlag = false) :=
  ⟨fun _ _ => rfl, fun _ _ => rfl, fun _ => rfl, rfl, fun _ _ => rfl⟩

/-- C5 counterexample: at the concrete transport failure below, the
component state after subscribeCount's setup is exactly the initial state
— the status string is still empty, so the failure was not propagated to
the status channel; it was swallowed. -/
theorem count_transport_failure_cex :
    (subscribeCountSetup (TransportResult.failed ("connection lost")) initialState).1 =
      initialState ∧ initialState.status = ("") :=
  ⟨rfl, rfl⟩

/-- C5 amended: when the aggregate subscription's transport fails, no
automatic retry is performed, but the failure is not propagated to the
status string either: the fire-and-forget setup swallows the rejection,
leaves the component state (status included) untouched and records no
unsubscribe handle. -/
theorem count_transport_failure_swallowed (msg : String) (s : CoursesState) :
    subscribeCountSetup (TransportResult.failed msg) s = (s, none) := rfl

/-- C6: the cleanup closures of both subscriptions are safe when the
unsubscribe handle is still unset (the asynchronous open has not
completed): they invoke nothing and do not throw (they are total), and
they invoke the handle exactly once when it has been resolved. -/
theorem cleanup_guarded :
    countCleanup none = [] ∧ coursesCleanup none = [] ∧
    (∀ h : Nat, countCleanup (some h) = [h]) ∧
    (∀ h : Nat, coursesCleanup (some h) = [h]) :=
  ⟨rfl, rfl, fun _ => rfl, fun _ => rfl⟩

/-- C7: the dialogs validate nothing about the input's format beyond
non-emptiness — a confirm with an empty (or untouched, undefined) form
value is rejected locally, while any non-empty string, however malformed,
passes the gate and is submitted verbatim inside the descriptor. -/
theorem no_format_validation (s : String) (hs : ¬ s = ("")) (c : Course)
    (hdna : jsNonEmpty c.dna = true) :
    submitGate (transferCall (JSVal.str s) c) = some (transferCall (JSVal.str s) c) ∧
    submitGate (setPriceCall (JSVal.str s) c) = some (setPriceCall (JSVal.str s) c) ∧
    submitGate (transferCall JSVal.undef c) = none ∧
    submitGate (transferCall (JSVal.str ("")) c) = none ∧
    submitGate (setPriceCall (JSVal.str ("")) c) = none := by
  have h1 : jsNonEmpty (JSVal.str s) = true := by simp [jsNonEmpty, hs]
  have h2 : jsNonEmpty (JSVal.str ("")) = false := by simp [jsNonEmpty]
  have h3 : jsNonEmpty JSVal.undef = false := rfl
  refine ⟨?_, ?_, ?_, ?_, ?_⟩ <;>
    simp [submitGate, transferCall, setPriceCall, List.all, h1, h2, h3, hdna]

/-- Witness for C7 at concrete inputs: a malformed non-empty recipient
passes through unchanged. -/
theorem no_format_validation_witness :
    submitGate (transferCall (JSVal.str ("not an address")) wireCourse) =
      some (transferCall (JSVal.str ("not an address")) wireCourse) :=
  (no_format_validation ("not an address") (by decide) wireCourse (by decide)).1

/-- C8 counterexample: with a two-identifier CourseIdSet whose second
identifier has no ledger record, the claim demands a resulting
CourseRecords of size 2 - 1 = 1; the handler instead throws on the None,
so no ok result of that size exists. -/
theorem resolution_missing_size_cex :
    ¬ ∃ s', handleCoursesPush
        (multiResolve [wireCourse]
          [JSVal.wire (JSVal.str ("0xbb")) [3, 4], JSVal.wire (JSVal.str ("0xcc")) [9]])
        initialState = Except.ok s' ∧
      s'.courses.length = 1 := by
  rintro ⟨s', h, -⟩
  have he : handleCoursesPush
      (multiResolve [wireCourse]
        [JSVal.wire (JSVal.str ("0xbb")) [3, 4], JSVal.wire (JSVal.str ("0xcc")) [9]])
      initialState = Except.error ("Option: unwrapping a None value") := rfl
  rw [he] at h
  exact Except.noConfusion h

/-- C8 amended: for a resolution push over a duplicate-free CourseIdSet in
which every identifier resolves to a record that parses, the handler
succeeds and the resulting CourseRecords has no duplicates and exactly the
size of the CourseIdSet (hence re-subscribing with an identical
fully-resolvable set yields the same size); an identifier whose record is
missing instead makes the handler throw, leaving CourseRecords unchanged,
rather than being excluded. -/
theorem resolution_push_size_nodup (L : List Course) (ids : List JSVal)
    (s : CoursesState) (hnd : ids.Nodup)
    (hres : ∀ id ∈ ids, ((lookupCourse L id).bind parseCourse).isSome = true) :
    ∃ s', handleCoursesPush (multiResolve L ids) s = Except.ok s' ∧
      s'.courses.length = ids.length ∧ s'.courses.Nodup := by
  obtain ⟨cs, hcs, hmap⟩ := parseAll_resolved L ids hres
  refine ⟨{ s with courses := cs }, ?_, ?_, ?_⟩
  · simp [handleCoursesPush, hcs]
  · have hl := congrArg List.length hmap
    simpa using hl
  · have hnm : (cs.map (fun r => r.dna)).Nodup := hmap ▸ hnd
    exact hnm.of_map

/-- Witness for C8 at concrete inputs: a singleton identifier set that
fully resolves. -/
theorem resolution_push_size_nodup_witness :
    ∃ s', handleCoursesPush
        (multiResolve [wireCourse] [JSVal.wire (JSVal.str ("0xbb")) [3, 4]])
        initialState = Except.ok s' ∧
      s'.courses.length = [JSVal.wire (JSVal.str ("0xbb")) [3, 4]].length ∧
      s'.courses.Nodup :=
  resolution_push_size_nodup [wireCourse] [JSVal.wire (JSVal.str ("0xbb")) [3, 4]]
    initialState (by decide) (by decide)

/-- C9: the Mine label and the owner action group are rendered under the
same condition — the isSelf strict equality and the action-gate strict
equality (over the destructured owner with null default) agree for every
owner value and every viewer address. -/
theorem mine_iff_owner_group (addr : String) (c : Course) :
    mineLabel addr c = true ↔ ownerGroupShown addr c = true := by
  simp only [mineLabel, ownerGroupShown]
  cases h : c.owner with
  | str s =>
    show (addr == s) = true ↔ (s == addr) = true
    simp only [beq_iff_eq]
    exact eq_comm
  | num n => exact Iff.rfl
  | null => exact Iff.rfl
  | undef => exact Iff.rfl
  | wire j b => exact Iff.rfl

/-- C10: parseCourse converts price, course_year and owner to their
toJSON values but keeps dna as its wire object; such a parsed record
renders (dna.toJSON and dna.toU8a both succeed), while a record whose dna
is any plain (non-wire) value cannot be rendered at all. -/
theorem parse_keeps_dna_wire (c : Course) (dj pj yj oj : JSVal)
    (db pb yb ob : List Nat)
    (hd : c.dna = JSVal.wire dj db) (hp : c.price = JSVal.wire pj pb)
    (hy : c.course_year = JSVal.wire yj yb) (ho : c.owner = JSVal.wire oj ob) :
    parseCourse c =
      some { dna := JSVal.wire dj db, price := pj, course_year := yj, owner := oj } ∧
    (∀ r, parseCourse c = some r → (renderCourseCard r).isSome = true) ∧
    (∀ r : Course, (∀ j b, r.dna ≠ JSVal.wire j b) → renderCourseCard r = none) := by
  have hparse : parseCourse c =
      some { dna := JSVal.wire dj db, price := pj, course_year := yj, owner := oj } := by
    simp [parseCourse, hp, hy, ho, jsToJSON, hd]
  refine ⟨hparse, ?_, ?_⟩
  · intro r hr
    rw [hparse] at hr
    cases hr
    simp [renderCourseCard, truthy, jsToJSON, jsToU8a]
  · intro r hr
    cases hdna : r.dna with
    | wire j b => exact absurd hdna (hr j b)
    | str s =>
      by_cases hse : s = ("") <;>
        simp [renderCourseCard, hdna, truthy, jsToJSON, jsToU8a, hse]
    | num n =>
      by_cases hne : n = 0 <;>
        simp [renderCourseCard, hdna, truthy, jsToJSON, jsToU8a, hne]
    | null => simp [renderCourseCard, hdna, truthy, jsToJSON, jsToU8a]
    | undef => simp [renderCourseCard, hdna, truthy, jsToJSON, jsToU8a]

/-- Witness for C10 at a concrete wire record. -/
theorem parse_keeps_dna_wire_witness :
    parseCourse wireCourse =
      some { dna := JSVal.wire (JSVal.str ("0xbb")) [3, 4], price := JSVal.num 5,
             course_year := JSVal.num 2024, owner := JSVal.str ("bob") } :=
  (parse_keeps_dna_wire wireCourse (JSVal.str ("0xbb")) (JSVal.num 5) (JSVal.num 2024)
    (JSVal.str ("bob")) [3, 4] [5] [6] [7] rfl rfl rfl rfl).1

end UniChain
